import Mathlib

/-!
Shallow embedding of the hubtty configuration resolution pipeline
(hubtty/config.py) and proofs about it.

Python dictionaries are modelled as ordered association lists, matching
dict / OrderedDict semantics: assignment to an existing key replaces the
value in place and keeps the position, a new key is appended at the end.
External collaborators (the filesystem, os.path.expanduser, the token
acquisition call hubtty.auth.getToken) are passed in as explicit
parameters, so every definition is executable.
-/

namespace Hubtty

/-- Lookup in an ordered association list, as Python dict indexing
d[k] when it succeeds (none models a KeyError). -/
def lookupKey (k : String) : List (String × α) → Option α
  | [] => none
  | (k2, v) :: rest => if k = k2 then some v else lookupKey k rest

/-- Python d.get(k, default) on a string-valued dict. -/
def dget (d : List (String × String)) (k : String) (dflt : String) : String :=
  (lookupKey k d).getD dflt

/-- Bool membership of a string in a list of keys. -/
def memKey (k : String) : List String → Bool
  | [] => false
  | a :: rest => if k = a then true else memKey k rest

/-- Ordered-dict assignment with a merge function: when the key exists
its value is combined in place with f (keeping the slot position),
otherwise the pair is appended at the end. With f := fun _ new => new
this is exactly Python dict assignment d[k] = v. -/
def ordInsertWith (f : α → α → α) : List (String × α) → String → α → List (String × α)
  | [], k, v => [(k, v)]
  | (k2, v2) :: rest, k, v =>
      if k2 = k then (k2, f v2 v) :: rest else (k2, v2) :: ordInsertWith f rest k v

/-- Fold a list of keyed entries into an ordered dict, starting from init. -/
def mergeNamed (f : α → α → α) (init : List (String × α))
    (entries : List (String × α)) : List (String × α) :=
  entries.foldl (fun acc e => ordInsertWith f acc e.1 e.2) init

/-- Python dict assignment d[k] = v. -/
def dictSet (d : List (String × α)) (k : String) (v : α) : List (String × α) :=
  ordInsertWith (fun _ new => new) d k v

/-- Python exception classes raised by the config code paths we model.
In the Python class hierarchy, KeyError is a subclass of LookupError
while AttributeError is not. -/
inductive PyError
  | keyError
  | attributeError
  deriving DecidableEq, Repr

/-- Whether the exception is an instance of the Python LookupError class. -/
def PyError.isLookupError : PyError → Bool
  | PyError.keyError => true
  | PyError.attributeError => false

/-! ## Data model: the schema-validated configuration document -/

/-- One entry of the servers list (ConfigSchema.server), kept as the raw
string-valued dict whose keys the code reads (all declared value types in
the server schema are str). -/
abbrev Server := List (String × String)

/-- Keys that v.Required marks in ConfigSchema.server. -/
def serverRequiredKeys : List String := ["name", "username", "git-root"]

/-- The closed key set ConfigSchema.server admits. -/
def serverAllowedKeys : List String :=
  ["name", "api-url", "url", "username", "dburi", "git-root", "git-url",
   "log-file", "lock-file", "socket"]

/-- Structural validity of a server entry under ConfigSchema.server:
every required key present, no key outside the declared closed set. -/
def validServer (s : Server) : Bool :=
  serverRequiredKeys.all (fun k => memKey k (s.map Prod.fst))
  && (s.map Prod.fst).all (fun k => memKey k serverAllowedKeys)

/-- ConfigSchema.sort_by atoms. -/
inductive SortKey
  | number
  | updated
  | lastSeen
  | project
  deriving DecidableEq, Repr

/-- sort-by admits one atom or a list of atoms. -/
inductive SortByVal
  | one (s : SortKey)
  | many (l : List SortKey)
  deriving DecidableEq, Repr

/-- ConfigSchema.replacement: text, link or search substitution. -/
inductive Replacement
  | text (color : Option String) (text : String)
  | link (url : String) (text : String)
  | search (query : String) (text : String)
  deriving DecidableEq, Repr

/-- ConfigSchema.palette entry: a required name plus an open mapping from
keys other than name to lists of strings. -/
structure PaletteDoc where
  name : String
  entries : List (String × List String)
  deriving DecidableEq, Repr

/-- ConfigSchema.keymap binding value: a string, a list of strings, or a
list of lists of strings (alternate and chorded bindings). -/
inductive KeyVal
  | str (s : String)
  | list (l : List String)
  | chords (l : List (List String))
  deriving DecidableEq, Repr

/-- ConfigSchema.keymap entry: a required name plus an open mapping from
keys other than name to binding values. -/
structure KeymapDoc where
  name : String
  entries : List (String × KeyVal)
  deriving DecidableEq, Repr

/-- ConfigSchema.commentlink entry. -/
structure CommentLinkDoc where
  matchPattern : String
  replacements : List Replacement
  testResult : Option String := none
  deriving DecidableEq, Repr

/-- ConfigSchema.dashboard entry. -/
structure DashboardDoc where
  name : String
  query : String
  sortBy : Option SortByVal := none
  reverse : Option Bool := none
  key : String
  deriving DecidableEq, Repr

/-- ConfigSchema.reviewkey_approval entry. -/
structure ReviewkeyApproval where
  category : String
  value : Int
  deriving DecidableEq, Repr

/-- ConfigSchema.reviewkey entry. -/
structure ReviewkeyDoc where
  approvals : List ReviewkeyApproval
  message : Option String := none
  submit : Option Bool := none
  key : String
  deriving DecidableEq, Repr

/-- ConfigSchema.size_column type enumeration: graph, split-graph,
number, disabled, or the YAML null value. -/
inductive SizeType
  | graph
  | splitGraph
  | number
  | disabled
  | nullv
  deriving DecidableEq, Repr

/-- ConfigSchema.size_column section: a required type and optional
thresholds (the schema demands exactly 8 integers when present). -/
structure SizeColumnDoc where
  type : SizeType
  thresholds : Option (List Int) := none
  deriving DecidableEq, Repr

/-- ConfigSchema.change_list_options section. -/
structure ChangeListOptions where
  sortBy : Option SortByVal := none
  reverse : Option Bool := none
  deriving DecidableEq, Repr

/-- A configuration document that passed ConfigSchema.getSchema
validation. An absent optional list key is represented by [] (the code
reads them with config.get(key, []) anyway) and other absent optional
keys by none. -/
structure ConfigDocument where
  servers : List Server
  palettes : List PaletteDoc := []
  palette : Option String := none
  keymaps : List KeymapDoc := []
  keymap : Option String := none
  commentlinks : List CommentLinkDoc := []
  dashboards : List DashboardDoc := []
  reviewkeys : List ReviewkeyDoc := []
  changeListQuery : Option String := none
  diffView : Option String := none
  hideComments : List String := []
  threadChanges : Option Bool := none
  displayTimesInUtc : Option Bool := none
  handleMouse : Option Bool := none
  breadcrumbs : Option Bool := none
  closeChangeOnReview : Option Bool := none
  changeListOptions : Option ChangeListOptions := none
  expireAge : Option String := none
  sizeColumn : Option SizeColumnDoc := none
  deriving DecidableEq, Repr

/-! ## Document locator (Config.verifyConfigFile, config.py 243-250) -/

def DEFAULT_CONFIG_PATH : String := "~/.config/hubtty/hubtty.yaml"

def DEFAULT_SECURE_PATH : String := "~/.config/hubtty/hubtty_auth.yaml"

def FALLBACK_CONFIG_PATH : String := "~/.hubtty.yaml"

/-- The guidance Config.printSample prints (config.py 275-283), with the
two candidate paths and the bundled examples location substituted in. -/
def printSample : String :=
  "Hubtty requires a configuration file at " ++ DEFAULT_CONFIG_PATH
  ++ " or " ++ FALLBACK_CONFIG_PATH ++ "\n\n"
  ++ "Several sample configuration files were installed with Hubtty and are\n"
  ++ "available in share/hubtty/examples in the root of the installation.\n\n"
  ++ "For more information, please see the README.\n"

/-- The loop body of verifyConfigFile: walk the candidate list, skip None,
expand the user directory, return the first expanded path that exists.
fsExists models os.path.exists and expand models os.path.expanduser. -/
def locateFirst (fsExists : String → Bool) (expand : String → String) :
    List (Option String) → Option String
  | [] => none
  | none :: rest => locateFirst fsExists expand rest
  | some p :: rest =>
      if fsExists (expand p) then some (expand p)
      else locateFirst fsExists expand rest

/-- Config.verifyConfigFile: try the explicit path, the default path and
the legacy fallback path in that order; none means the code falls through
to printSample and sys.exit(1). -/
def verifyConfigFile (fsExists : String → Bool) (expand : String → String)
    (path : Option String) : Option String :=
  locateFirst fsExists expand
    [path, some DEFAULT_CONFIG_PATH, some FALLBACK_CONFIG_PATH]

/-- Outcome of the start of Config.init: either the process exited with a
code and a printed message, or a value was produced. -/
inductive InitOutcome (α : Type)
  | exited (code : Nat) (message : String)
  | result (a : α)
  deriving DecidableEq, Repr

/-- The first statements of Config.init (config.py 144-148): locate the
file, then run schema validation on its parsed content. The validation
step is an external oracle here; the Bool in the pair records whether it
was invoked at all. -/
def loadConfigChecked (fsExists : String → Bool) (expand : String → String)
    (validate : String → Bool) (path : Option String) :
    InitOutcome String × Bool :=
  match verifyConfigFile fsExists expand path with
  | none => (InitOutcome.exited 1 printSample, false)
  | some f =>
      if validate f then (InitOutcome.result f, true)
      else (InitOutcome.exited 1 printSample, true)

/-! ## Server selection (Config.getServer, config.py 252-256) -/

/-- Config.getServer: return the first server whose name matches, or the
first server when no name was requested; None when nothing matches. -/
def getServer (servers : List Server) (name : Option String) : Option Server :=
  match servers with
  | [] => none
  | s :: rest =>
      match name with
      | none => some s
      | some n =>
          if lookupKey "name" s = some n then some s
          else getServer rest name

/-- The use of getServer in Config.init (config.py 149-151): when it
returns None, the next line server.get(..) raises AttributeError on
NoneType. -/
def selectServer (servers : List Server) (name : Option String) :
    Except PyError Server :=
  match getServer servers name with
  | some s => Except.ok s
  | none => Except.error PyError.attributeError

/-! ## URL resolution (config.py 151-165) -/

/-- The trailing-slash normalization applied at config.py 152-153,
156-157 and 163-164: append a slash when the value does not end in one.
The endswith test on the one-character suffix is modelled as inspecting
the last character of the string. -/
def normSlash (u : String) : String :=
  if u.data.getLast? = some '/' then u else u ++ "/"

/-- config.py 151-154. NOTE: the code reads dict key api_url with an
underscore, while ConfigSchema.server declares the key api-url. -/
def resolveApiUrl (server : Server) : String :=
  normSlash (dget server "api_url" "https://api.github.com/")

/-- config.py 155-158. -/
def resolveUrl (server : Server) : String :=
  normSlash (dget server "url" "https://github.com/")

/-- config.py 162-165. -/
def resolveGitUrl (server : Server) : String :=
  normSlash (dget server "git-url" "https://github.com/")

/-! ## Palettes (config.py 175-183) -/

/-- Modelled from the spec: hubtty.palette.Palette (hubtty/palette.py is
not under src/). A palette holds the open mapping of the named entry; its
update method shallow-merges a document entry into it key by key. -/
structure Palette where
  colors : List (String × List String)
  deriving DecidableEq, Repr

/-- Modelled from the spec: Palette construction from a document entry
takes the open mapping of that entry. -/
def Palette.ofDoc (p : PaletteDoc) : Palette :=
  { colors := p.entries }

/-- Modelled from the spec: Palette.update shallow-merges the incoming
keys over the existing ones (incoming keys overwrite, others survive). -/
def Palette.merge (old new : Palette) : Palette :=
  { colors := mergeNamed (fun _ n => n) old.colors new.colors }

/-- The built-in palettes dict literal at config.py 175-177. The content
of hubtty.palette.LIGHT_PALETTE is external, so it is a parameter. -/
def builtinPalettes (light : List (String × List String)) :
    List (String × Palette) :=
  [("default", { colors := [] }), ("light", { colors := light })]

/-- The palette merge loop at config.py 178-182: a new name is appended,
an existing name is updated in place. -/
def palettesDict (light : List (String × List String))
    (doc : ConfigDocument) : List (String × Palette) :=
  mergeNamed Palette.merge (builtinPalettes light)
    (doc.palettes.map (fun p => (p.name, Palette.ofDoc p)))

/-! ## Keymaps (config.py 185-192) -/

/-- Modelled from the spec: hubtty.keymap.KeyMap (hubtty/keymap.py is not
under src/). A keymap holds the open mapping of bindings of the named
entry; update shallow-merges a document entry into it. -/
structure KeyMap where
  bindings : List (String × KeyVal)
  deriving DecidableEq, Repr

/-- Modelled from the spec: KeyMap construction from a document entry. -/
def KeyMap.ofDoc (d : KeymapDoc) : KeyMap :=
  { bindings := d.entries }

/-- Modelled from the spec: KeyMap.update shallow-merges the incoming
bindings over the existing ones. -/
def KeyMap.merge (old new : KeyMap) : KeyMap :=
  { bindings := mergeNamed (fun _ n => n) old.bindings new.bindings }

/-- The built-in keymaps dict literal at config.py 185-186. The content
of hubtty.keymap.VI_KEYMAP is external, so it is a parameter. -/
def builtinKeymaps (vi : List (String × KeyVal)) : List (String × KeyMap) :=
  [("default", { bindings := [] }), ("vi", { bindings := vi })]

/-- The keymap merge loop at config.py 187-191. -/
def keymapsDict (vi : List (String × KeyVal)) (doc : ConfigDocument) :
    List (String × KeyMap) :=
  mergeNamed KeyMap.merge (builtinKeymaps vi)
    (doc.keymaps.map (fun d => (d.name, KeyMap.ofDoc d)))

/-- The keymap selection at config.py 192:
self.keymaps[self.config.get(keymap-key, ctor-default)]. Dict subscript
on a missing key raises KeyError, a subclass of LookupError. -/
def selectKeymap (vi : List (String × KeyVal)) (doc : ConfigDocument)
    (fallback : String) : Except PyError KeyMap :=
  let name := match doc.keymap with
    | some n => n
    | none => fallback
  match lookupKey name (keymapsDict vi doc) with
  | some km => Except.ok km
  | none => Except.error PyError.keyError

/-! ## Comment links (config.py 194-202) -/

/-- Modelled from the spec: hubtty.commentlink.CommentLink
(hubtty/commentlink.py is not under src/); only the rule data shape is in
scope, so a CommentLink carries the rule it was built from. -/
structure CommentLink where
  rule : CommentLinkDoc
  deriving DecidableEq, Repr

/-- The synthetic bare-URL-to-hyperlink rule appended at config.py
196-202. -/
def bareUrlCommentLink : CommentLink :=
  { rule := { matchPattern := "(?P<url>https?://\\S*)",
              replacements := [Replacement.link "\x7burl\x7d" "\x7burl\x7d"],
              testResult := none } }

/-- config.py 194-202: one CommentLink per document rule, in document
order, then the synthetic bare-URL rule is appended. -/
def resolveCommentlinks (doc : ConfigDocument) : List CommentLink :=
  (doc.commentlinks.map (fun c => CommentLink.mk c)) ++ [bareUrlCommentLink]

/-! ## Dashboards and review keys (config.py 208-215) -/

/-- The dashboard loop at config.py 208-211: an OrderedDict keyed by the
key field; assignment overwrites in place or appends. (Line 211 reads the
entry back and discards it, a no-op.) -/
def resolveDashboards (doc : ConfigDocument) : List (String × DashboardDoc) :=
  mergeNamed (fun _ n => n) [] (doc.dashboards.map (fun d => (d.key, d)))

/-- The reviewkey loop at config.py 213-215, same OrderedDict pattern. -/
def resolveReviewkeys (doc : ConfigDocument) : List (String × ReviewkeyDoc) :=
  mergeNamed (fun _ n => n) [] (doc.reviewkeys.map (fun k => (k.key, k)))

/-! ## Size column (config.py 234-241) -/

/-- The resolved size-column section: a type and thresholds, both set. -/
structure ResolvedSizeColumn where
  type : SizeType
  thresholds : List Int
  deriving DecidableEq, Repr

/-- config.py 234-241: the section defaults to the empty dict, its type
to graph; the threshold default depends on the resolved type. -/
def resolveSizeColumn (sc : Option SizeColumnDoc) : ResolvedSizeColumn :=
  let ty := match sc with
    | none => SizeType.graph
    | some s => s.type
  let given := match sc with
    | none => none
    | some s => s.thresholds
  match ty with
  | SizeType.graph =>
      { type := ty, thresholds := given.getD [1, 10, 100, 1000] }
  | t =>
      { type := t,
        thresholds := given.getD [1, 10, 100, 200, 400, 600, 800, 1000] }

/-! ## Credential store (Config.getToken, config.py 258-272) -/

/-- The credential file content: a mapping from server name to a record
dict (holding at least a token key), plus permission bits when known. -/
structure CredFile where
  entries : List (String × List (String × String))
  mode : Option Nat
  deriving DecidableEq, Repr

/-- State threaded through getToken: the credential file (none when it
does not exist yet) and how many times the external acquisition
collaborator hubtty.auth.getToken has been invoked so far. -/
structure CredState where
  file : Option CredFile
  acquired : Nat
  deriving DecidableEq, Repr

/-- The external acquisition collaborator: given the server url and the
number of previous invocations, the token it returns. -/
structure TokenEnv where
  acquire : String → Nat → String

/-- Config.getToken (config.py 258-272). open(path, w+) creates the file
if absent and truncates it to empty either way, so the yaml.safe_load on
the freshly opened handle always yields the empty mapping; on the (thus
unreachable) cached branch the token is returned without a write, else
the collaborator is invoked, the record stored, the whole mapping dumped
back, and in all cases the file mode is then forced to 0o600. -/
def getToken (env : TokenEnv) (name url : String) (s : CredState) :
    String × CredState :=
  let opened : CredFile :=
    { entries := [],
      mode := match s.file with
        | some f => f.mode
        | none => none }
  let auth := opened.entries
  let conf := (lookupKey name auth).getD []
  let cached := match lookupKey "token" conf with
    | some t => if t = "" then none else some t
    | none => none
  match cached with
  | some t =>
      (t, { file := some { opened with mode := some 0o600 },
            acquired := s.acquired })
  | none =>
      let t := env.acquire url s.acquired
      let conf2 := dictSet conf "token" t
      let auth2 := dictSet auth name conf2
      let written : CredFile := { entries := auth2, mode := opened.mode }
      (t, { file := some { written with mode := some 0o600 },
            acquired := s.acquired + 1 })

/-! ## Spec-side comparison definitions -/

/-- Comparison definition following the words of the spec: the keys of an
ordered keyed collection, in order of first occurrence, given the keys
already seen. -/
def specFirstOccFrom (seen : List String) : List String → List String
  | [] => []
  | k :: ks =>
      if memKey k seen then specFirstOccFrom seen ks
      else k :: specFirstOccFrom (seen ++ [k]) ks

/-- Comparison definition following the words of the spec: keys in order
of first occurrence, nothing seen yet. -/
def specFirstOcc (ks : List String) : List String :=
  specFirstOccFrom [] ks

/-- The first defined of two optional values (used to phrase shallow
merge: the overriding entry wins, else the base survives). -/
def firstSome (a b : Option α) : Option α :=
  match a with
  | some x => some x
  | none => b

/-! ## Lemmas about the ordered-dict machinery -/

theorem firstSome_assoc (a b c : Option α) :
    firstSome (firstSome a b) c = firstSome a (firstSome b c) := by
  cases a <;> rfl

theorem firstSome_none_right (a : Option α) : firstSome a none = a := by
  cases a <;> rfl

theorem lookupKey_ordInsertWith_self (f : α → α → α) (l : List (String × α))
    (k : String) (v : α) :
    lookupKey k (ordInsertWith f l k v)
      = some (match lookupKey k l with
              | some o => f o v
              | none => v) := by
  induction l with
  | nil => simp [ordInsertWith, lookupKey]
  | cons p rest ih =>
      obtain ⟨k2, v2⟩ := p
      by_cases h : k2 = k
      · subst h
        simp [ordInsertWith, lookupKey]
      · simp [ordInsertWith, lookupKey, h, Ne.symm h, ih]

theorem lookupKey_ordInsertWith_ne (f : α → α → α) (l : List (String × α))
    {k2 k : String} (v : α) (h : k2 ≠ k) :
    lookupKey k2 (ordInsertWith f l k v) = lookupKey k2 l := by
  induction l with
  | nil => simp [ordInsertWith, lookupKey, h]
  | cons p rest ih =>
      obtain ⟨ka, va⟩ := p
      by_cases hk : ka = k
      · subst hk
        simp [ordInsertWith, lookupKey, h]
      · by_cases h2 : k2 = ka <;> simp [ordInsertWith, lookupKey, hk, h2, ih]

theorem keys_ordInsertWith (f : α → α → α) (l : List (String × α))
    (k : String) (v : α) :
    (ordInsertWith f l k v).map Prod.fst
      = if memKey k (l.map Prod.fst) then l.map Prod.fst
        else l.map Prod.fst ++ [k] := by
  induction l with
  | nil => simp [ordInsertWith, memKey]
  | cons p rest ih =>
      obtain ⟨k2, v2⟩ := p
      by_cases h : k2 = k
      · subst h
        simp [ordInsertWith, memKey]
      · simp only [ordInsertWith, if_neg h, List.map_cons, memKey,
          if_neg (Ne.symm h), ih]
        split <;> simp

theorem mergeNamed_cons (f : α → α → α) (init : List (String × α))
    (e : String × α) (rest : List (String × α)) :
    mergeNamed f init (e :: rest)
      = mergeNamed f (ordInsertWith f init e.1 e.2) rest := rfl

theorem mergeNamed_append (f : α → α → α) (init l1 l2 : List (String × α)) :
    mergeNamed f init (l1 ++ l2) = mergeNamed f (mergeNamed f init l1) l2 := by
  simp [mergeNamed, List.foldl_append]

theorem keys_mergeNamed (f : α → α → α) (es : List (String × α)) :
    ∀ init : List (String × α),
    (mergeNamed f init es).map Prod.fst
      = init.map Prod.fst
        ++ specFirstOccFrom (init.map Prod.fst) (es.map Prod.fst) := by
  induction es with
  | nil => intro init; simp [mergeNamed, specFirstOccFrom]
  | cons e rest ih =>
      intro init
      obtain ⟨k, v⟩ := e
      rw [mergeNamed_cons, ih, keys_ordInsertWith]
      cases hmk : memKey k (init.map Prod.fst) <;>
        simp [specFirstOccFrom, hmk, List.append_assoc]

theorem lookupKey_mergeNamed_ne (f : α → α → α) (es : List (String × α)) :
    ∀ (init : List (String × α)) (k : String), (∀ e ∈ es, e.1 ≠ k) →
    lookupKey k (mergeNamed f init es) = lookupKey k init := by
  induction es with
  | nil => intro init k _; rfl
  | cons e rest ih =>
      intro init k h
      obtain ⟨k0, v0⟩ := e
      have h0 : k0 ≠ k := h (k0, v0) (List.mem_cons_self _ _)
      rw [mergeNamed_cons, ih _ k (fun e he => h e (List.mem_cons_of_mem _ he)),
        lookupKey_ordInsertWith_ne f init v0 (Ne.symm h0)]

theorem lookupKey_mergeNamed_isSome (f : α → α → α) (es : List (String × α)) :
    ∀ (init : List (String × α)) (k : String),
    (lookupKey k init).isSome = true →
    (lookupKey k (mergeNamed f init es)).isSome = true := by
  induction es with
  | nil => intro init k h; exact h
  | cons e rest ih =>
      intro init k h
      obtain ⟨k0, v0⟩ := e
      rw [mergeNamed_cons]
      apply ih
      by_cases hk : k = k0
      · subst hk
        rw [lookupKey_ordInsertWith_self]
        rfl
      · rw [lookupKey_ordInsertWith_ne f init v0 hk]
        exact h

theorem lookupKey_mergeNamed_mem (f : α → α → α) (es : List (String × α)) :
    ∀ (init : List (String × α)) (k : String) (v : α), (k, v) ∈ es →
    (lookupKey k (mergeNamed f init es)).isSome = true := by
  induction es with
  | nil => intro init k v h; cases h
  | cons e rest ih =>
      intro init k v h
      rcases List.mem_cons.mp h with heq | hmem
      · cases heq
        rw [mergeNamed_cons]
        apply lookupKey_mergeNamed_isSome
        rw [lookupKey_ordInsertWith_self]
        rfl
      · obtain ⟨k0, v0⟩ := e
        rw [mergeNamed_cons]
        exact ih _ k v hmem

theorem lookupKey_append (k : String) (l1 l2 : List (String × α)) :
    lookupKey k (l1 ++ l2) = firstSome (lookupKey k l1) (lookupKey k l2) := by
  induction l1 with
  | nil => simp [lookupKey, firstSome]
  | cons p rest ih =>
      obtain ⟨k2, v⟩ := p
      by_cases h : k = k2 <;> simp [lookupKey, h, firstSome, ih]

theorem lookupKey_mergeNamed_replace (es : List (String × α)) :
    ∀ (init : List (String × α)) (k : String),
    lookupKey k (mergeNamed (fun _ n => n) init es)
      = firstSome (lookupKey k es.reverse) (lookupKey k init) := by
  induction es with
  | nil => intro init k; simp [mergeNamed, lookupKey, firstSome]
  | cons e rest ih =>
      intro init k
      obtain ⟨k0, v0⟩ := e
      rw [mergeNamed_cons, ih, List.reverse_cons, lookupKey_append,
        firstSome_assoc]
      congr 1
      by_cases h : k = k0
      · subst h
        rw [lookupKey_ordInsertWith_self]
        cases lookupKey k init <;> simp [lookupKey, firstSome]
      · rw [lookupKey_ordInsertWith_ne _ init v0 h]
        simp [lookupKey, h, firstSome]

/-! ## Claim C3: getToken truncates the store to a single fresh entry -/

/-- C3: every call to getToken opens the credential store in truncating
write mode before reading it, so after the call the persisted file holds
exactly one entry, the given server name mapped to the freshly acquired
token, with mode 0o600; every previously persisted entry is erased, and
the collaborator was invoked once more. -/
theorem getToken_truncates_to_single_entry (env : TokenEnv)
    (name url : String) (s : CredState) :
    getToken env name url s
      = (env.acquire url s.acquired,
         { file := some { entries := [(name, [("token", env.acquire url s.acquired)])],
                          mode := some 0o600 },
           acquired := s.acquired + 1 }) := rfl

/-! ## Claim C1: the credential round trip is broken by the truncation -/

/-- Acquisition collaborator returning a distinct token per invocation. -/
def roundTripEnv : TokenEnv :=
  { acquire := fun _ k => "tok" ++ toString k }

/-- Initial state: no credential file yet, no invocations. -/
def roundTripStart : CredState :=
  { file := none, acquired := 0 }

/-- Result of the first getToken call for server github.com. -/
def roundTripFirst : String × CredState :=
  getToken roundTripEnv "github.com" "https://github.com/" roundTripStart

/-- Result of the second getToken call for the same server. -/
def roundTripSecond : String × CredState :=
  getToken roundTripEnv "github.com" "https://github.com/" roundTripFirst.2

/-- C1: the second getToken call for the same server invokes the
acquisition collaborator again (the invocation count reaches 2) and
returns a token different from the one persisted by the first call,
because the open in truncating write mode erases the cache before it is
read. -/
theorem getToken_second_call_reacquires :
    roundTripFirst.1 = "tok0"
    ∧ roundTripFirst.2.acquired = 1
    ∧ roundTripSecond.1 = "tok1"
    ∧ roundTripSecond.2.acquired = 2
    ∧ roundTripSecond.1 ≠ roundTripFirst.1 :=
  ⟨rfl, rfl, rfl, rfl, by decide⟩

/-! ## Claim C2: trailing-slash normalization and the api_url key slip -/

/-- A schema-valid server entry that sets api-url (the key the schema
declares) to a value without a trailing slash. -/
def apiUrlServer : Server :=
  [("name", "github.com"), ("username", "me"), ("git-root", "~/git"),
   ("api-url", "https://example.com")]

/-- A schema-valid server entry setting url and git-url. -/
def urlServer : Server :=
  [("name", "github.com"), ("username", "me"), ("git-root", "~/git"),
   ("url", "https://example.com"), ("git-url", "https://example.com")]

/-- C2: the code reads the server key api_url (underscore), which the
closed schema never admits, so a valid document carrying
api-url: https://example.com resolves api_url to the built-in default
rather than to the normalized document value; url and git-url do resolve
to the document value with the slash appended. -/
theorem apiUrl_reads_wrong_key :
    validServer apiUrlServer = true
    ∧ resolveApiUrl apiUrlServer = "https://api.github.com/"
    ∧ resolveApiUrl apiUrlServer ≠ normSlash "https://example.com"
    ∧ validServer urlServer = true
    ∧ resolveUrl urlServer = "https://example.com/"
    ∧ resolveGitUrl urlServer = "https://example.com/" :=
  ⟨rfl, rfl, by decide, rfl, rfl, rfl⟩

/-! ## Claim C4: requesting an absent server name -/

/-- Helper: when no server carries the requested name, getServer scans
the whole list and returns None. -/
theorem getServer_eq_none : ∀ (servers : List Server) (name : String),
    (∀ s ∈ servers, lookupKey "name" s ≠ some name) →
    getServer servers (some name) = none := by
  intro servers name
  induction servers with
  | nil => intro _; rfl
  | cons s rest ih =>
      intro h
      simp only [getServer]
      rw [if_neg (h s (List.mem_cons_self _ _))]
      exact ih (fun q hq => h q (List.mem_cons_of_mem _ hq))

/-- A servers list holding one valid server named github.com. -/
def missingNameServers : List Server :=
  [[("name", "github.com"), ("username", "me"), ("git-root", "~/git")]]

/-- C4 counterexample: requesting a name absent from the servers list
makes resolution fail, but with AttributeError (getServer returns None
and the next line calls .get on it), which is not a LookupError. -/
theorem getServer_missing_not_lookupError :
    selectServer missingNameServers (some "absent")
      = Except.error PyError.attributeError
    ∧ PyError.attributeError.isLookupError = false :=
  ⟨rfl, rfl⟩

/-- C4 amended: when a server name is explicitly requested and no profile
carries it, getServer returns None, resolution fails with an
AttributeError when the None is dereferenced, and no server profile (in
particular not the first one) is ever returned. -/
theorem getServer_missing_fails_no_fallback (servers : List Server)
    (name : String)
    (h : ∀ s ∈ servers, lookupKey "name" s ≠ some name) :
    getServer servers (some name) = none
    ∧ selectServer servers (some name) = Except.error PyError.attributeError
    ∧ ∀ s, selectServer servers (some name) ≠ Except.ok s := by
  have hg := getServer_eq_none servers name h
  refine ⟨hg, ?_, ?_⟩
  · simp [selectServer, hg]
  · intro s
    simp [selectServer, hg]

/-- C4 witness: the amended theorem applied to a concrete servers list
and a concretely absent name. -/
theorem getServer_missing_fails_no_fallback_witness :
    (∀ s ∈ missingNameServers, lookupKey "name" s ≠ some "absent2")
    ∧ (getServer missingNameServers (some "absent2") = none
       ∧ selectServer missingNameServers (some "absent2")
           = Except.error PyError.attributeError
       ∧ ∀ s, selectServer missingNameServers (some "absent2") ≠ Except.ok s) :=
  ⟨by decide,
   getServer_missing_fails_no_fallback missingNameServers "absent2" (by decide)⟩

/-! ## Claim C5: dashboards and review shortcuts overwrite in place -/

/-- C5: for every document, the resolved dashboard collection keeps each
key at the position of its first occurrence (new keys are appended in
source order) while the value stored under a key is the one of its last
occurrence; the same holds for review shortcuts. -/
theorem dashboards_overwrite_in_place (doc : ConfigDocument) :
    (resolveDashboards doc).map Prod.fst
        = specFirstOcc (doc.dashboards.map DashboardDoc.key)
    ∧ (∀ k, lookupKey k (resolveDashboards doc)
        = lookupKey k (doc.dashboards.reverse.map (fun d => (d.key, d))))
    ∧ (resolveReviewkeys doc).map Prod.fst
        = specFirstOcc (doc.reviewkeys.map ReviewkeyDoc.key)
    ∧ (∀ k, lookupKey k (resolveReviewkeys doc)
        = lookupKey k (doc.reviewkeys.reverse.map (fun d => (d.key, d)))) := by
  refine ⟨?_, ?_, ?_, ?_⟩
  · rw [resolveDashboards, keys_mergeNamed]
    simp only [specFirstOcc, List.map_map, List.map_nil, List.nil_append]
    rfl
  · intro k
    rw [resolveDashboards, lookupKey_mergeNamed_replace, ← List.map_reverse]
    simp [lookupKey, firstSome_none_right]
  · rw [resolveReviewkeys, keys_mergeNamed]
    simp only [specFirstOcc, List.map_map, List.map_nil, List.nil_append]
    rfl
  · intro k
    rw [resolveReviewkeys, lookupKey_mergeNamed_replace, ← List.map_reverse]
    simp [lookupKey, firstSome_none_right]

/-! ## Claim C6: document location order and the fatal missing-file path -/

/-- C6: verifyConfigFile tries the explicit path, the default path and
the legacy fallback path in that order and returns the first that exists
after expansion; when none of the three exists, the start of Config.init
prints the guidance message and exits with status 1 without ever invoking
schema validation. -/
theorem config_location_order (fsE : String → Bool)
    (expand : String → String) (validate : String → Bool) (p : String) :
    (fsE (expand p) = true →
        verifyConfigFile fsE expand (some p) = some (expand p))
    ∧ (fsE (expand p) = false → fsE (expand DEFAULT_CONFIG_PATH) = true →
        verifyConfigFile fsE expand (some p)
          = some (expand DEFAULT_CONFIG_PATH))
    ∧ (fsE (expand p) = false → fsE (expand DEFAULT_CONFIG_PATH) = false →
        fsE (expand FALLBACK_CONFIG_PATH) = true →
        verifyConfigFile fsE expand (some p)
          = some (expand FALLBACK_CONFIG_PATH))
    ∧ (fsE (expand DEFAULT_CONFIG_PATH) = true →
        verifyConfigFile fsE expand none
          = some (expand DEFAULT_CONFIG_PATH))
    ∧ (fsE (expand p) = false → fsE (expand DEFAULT_CONFIG_PATH) = false →
        fsE (expand FALLBACK_CONFIG_PATH) = false →
        loadConfigChecked fsE expand validate (some p)
          = (InitOutcome.exited 1 printSample, false)) := by
  refine ⟨?_, ?_, ?_, ?_, ?_⟩
  · intro h1
    simp [verifyConfigFile, locateFirst, h1]
  · intro h1 h2
    simp [verifyConfigFile, locateFirst, h1, h2]
  · intro h1 h2 h3
    simp [verifyConfigFile, locateFirst, h1, h2, h3]
  · intro h2
    simp [verifyConfigFile, locateFirst, h2]
  · intro h1 h2 h3
    simp [loadConfigChecked, verifyConfigFile, locateFirst, h1, h2, h3]

/-- C6 witness: with a filesystem where nothing exists, resolution of an
explicitly given path exits with status 1 and the guidance message,
without invoking validation. -/
theorem config_location_order_witness :
    ((fun _ : String => false) (id "/etc/hubtty.yaml") = false
      ∧ (fun _ : String => false) (id DEFAULT_CONFIG_PATH) = false
      ∧ (fun _ : String => false) (id FALLBACK_CONFIG_PATH) = false)
    ∧ loadConfigChecked (fun _ => false) id (fun _ => true)
        (some "/etc/hubtty.yaml")
        = (InitOutcome.exited 1 printSample, false) :=
  ⟨⟨rfl, rfl, rfl⟩,
   (config_location_order (fun _ => false) id (fun _ => true)
      "/etc/hubtty.yaml").2.2.2.2 rfl rfl rfl⟩

/-! ## Claim C7: comment-link ordering -/

/-- C7: for every document the resolved comment-link list is exactly the
document rules in document order followed by the synthetic bare-URL rule
as last element; rules are never merged. -/
theorem commentlinks_order (doc : ConfigDocument) :
    (resolveCommentlinks doc).dropLast
        = doc.commentlinks.map CommentLink.mk
    ∧ (resolveCommentlinks doc).getLast? = some bareUrlCommentLink
    ∧ (resolveCommentlinks doc).length = doc.commentlinks.length + 1 := by
  refine ⟨?_, ?_, ?_⟩ <;> simp [resolveCommentlinks]

/-! ## Claim C8: new keymaps are appended and selectable -/

/-- Helper: entries of the keymap merge loop carry the document names. -/
theorem keymapEntries_name_ne (l : List KeymapDoc) (n : String)
    (h : ∀ q ∈ l, q.name ≠ n) :
    ∀ e ∈ l.map (fun d => (d.name, KeyMap.ofDoc d)), e.1 ≠ n := by
  intro e he
  obtain ⟨q, hq, rfl⟩ := List.mem_map.mp he
  exact h q hq

/-- C8: a document keymap whose name is neither default nor vi appears in
the resolved keymap collection (built-ins first, new names appended in
first-occurrence order) and is selectable by name; selecting a name
absent from the built-ins and from the document raises KeyError, which is
a LookupError. -/
theorem keymap_new_name_selectable (vi : List (String × KeyVal))
    (doc : ConfigDocument) (d : KeymapDoc)
    (hmem : d ∈ doc.keymaps)
    (hd1 : d.name ≠ "default") (hd2 : d.name ≠ "vi") :
    (keymapsDict vi doc).map Prod.fst
        = ["default", "vi"]
          ++ specFirstOccFrom ["default", "vi"]
              (doc.keymaps.map KeymapDoc.name)
    ∧ (∃ km, selectKeymap vi { doc with keymap := some d.name } "default"
          = Except.ok km)
    ∧ (∀ name : String, name ≠ "default" → name ≠ "vi" →
        (∀ q ∈ doc.keymaps, q.name ≠ name) →
        selectKeymap vi { doc with keymap := some name } "default"
            = Except.error PyError.keyError
        ∧ PyError.keyError.isLookupError = true) := by
  refine ⟨?_, ?_, ?_⟩
  · rw [keymapsDict, keys_mergeNamed]
    simp only [builtinKeymaps, List.map_cons, List.map_nil, List.map_map]
    rfl
  · have hs := lookupKey_mergeNamed_mem KeyMap.merge
      (doc.keymaps.map (fun q => (q.name, KeyMap.ofDoc q)))
      (builtinKeymaps vi) d.name (KeyMap.ofDoc d)
      (List.mem_map_of_mem _ hmem)
    obtain ⟨km, hkm⟩ := Option.isSome_iff_exists.mp hs
    exact ⟨km, by simp [selectKeymap, keymapsDict, hkm]⟩
  · intro name hn1 hn2 habs
    have hne : lookupKey name (keymapsDict vi doc)
        = lookupKey name (builtinKeymaps vi) := by
      rw [keymapsDict]
      exact lookupKey_mergeNamed_ne _ _ _ _
        (keymapEntries_name_ne doc.keymaps name habs)
    have hb : lookupKey name (builtinKeymaps vi) = none := by
      simp [builtinKeymaps, lookupKey, hn1, hn2]
    have hdoc : keymapsDict vi { doc with keymap := some name }
        = keymapsDict vi doc := rfl
    exact ⟨by simp [selectKeymap, hdoc, hne, hb], rfl⟩

/-- A document contributing one keymap named emacs. -/
def keymapWitnessDoc : ConfigDocument :=
  { servers := [], keymaps := [{ name := "emacs", entries := [] }] }

/-- C8 witness: the theorem applied to a concrete document defining the
keymap emacs. -/
theorem keymap_new_name_selectable_witness :
    ((⟨"emacs", []⟩ : KeymapDoc) ∈ keymapWitnessDoc.keymaps
      ∧ ("emacs" : String) ≠ "default" ∧ ("emacs" : String) ≠ "vi")
    ∧ ((keymapsDict [] keymapWitnessDoc).map Prod.fst
          = ["default", "vi"]
            ++ specFirstOccFrom ["default", "vi"]
                (keymapWitnessDoc.keymaps.map KeymapDoc.name)
      ∧ (∃ km, selectKeymap [] { keymapWitnessDoc with keymap := some "emacs" }
            "default" = Except.ok km)
      ∧ (∀ name : String, name ≠ "default" → name ≠ "vi" →
          (∀ q ∈ keymapWitnessDoc.keymaps, q.name ≠ name) →
          selectKeymap [] { keymapWitnessDoc with keymap := some name }
              "default" = Except.error PyError.keyError
          ∧ PyError.keyError.isLookupError = true)) :=
  ⟨⟨List.mem_cons_self _ _, by decide, by decide⟩,
   keymap_new_name_selectable [] keymapWitnessDoc ⟨"emacs", []⟩
     (List.mem_cons_self _ _) (by decide) (by decide)⟩

/-! ## Claim C9: the default palette is the built-in overlaid with the entry -/

/-- Helper: entries of the palette merge loop carry the document names. -/
theorem paletteEntries_name_ne (l : List PaletteDoc) (n : String)
    (h : ∀ q ∈ l, q.name ≠ n) :
    ∀ e ∈ l.map (fun p => (p.name, Palette.ofDoc p)), e.1 ≠ n := by
  intro e he
  obtain ⟨q, hq, rfl⟩ := List.mem_map.mp he
  exact h q hq

/-- C9: for every document whose palettes list contains an entry named
default (and no other entry of that name), the resolved default palette
is the built-in empty palette shallow-merged with that entry: a key
defined by the entry wins, a built-in key not mentioned survives. -/
theorem palette_default_overlay (light : List (String × List String))
    (doc : ConfigDocument) (l1 l2 : List PaletteDoc) (p : PaletteDoc)
    (hsplit : doc.palettes = l1 ++ p :: l2)
    (hp : p.name = "default")
    (h1 : ∀ q ∈ l1, q.name ≠ "default")
    (h2 : ∀ q ∈ l2, q.name ≠ "default") :
    lookupKey "default" (palettesDict light doc)
        = some (Palette.merge (Palette.mk []) (Palette.ofDoc p))
    ∧ (∀ k, lookupKey k (Palette.merge (Palette.mk [])
            (Palette.ofDoc p)).colors
        = firstSome (lookupKey k p.entries.reverse)
            (lookupKey k (Palette.mk []).colors)) := by
  constructor
  · have e2 : lookupKey "default" (palettesDict light doc)
        = lookupKey "default" (ordInsertWith Palette.merge
            (mergeNamed Palette.merge (builtinPalettes light)
              (l1.map (fun q => (q.name, Palette.ofDoc q))))
            "default" (Palette.ofDoc p)) := by
      rw [palettesDict, hsplit, List.map_append, List.map_cons,
        mergeNamed_append]
      simp only [mergeNamed_cons, hp]
      exact lookupKey_mergeNamed_ne _ _ _ _
        (paletteEntries_name_ne l2 _ h2)
    have e1 : lookupKey "default"
        (mergeNamed Palette.merge (builtinPalettes light)
          (l1.map (fun q => (q.name, Palette.ofDoc q))))
        = some (Palette.mk []) := by
      rw [lookupKey_mergeNamed_ne _ _ _ _ (paletteEntries_name_ne l1 _ h1)]
      rfl
    rw [e2, lookupKey_ordInsertWith_self, e1]
  · intro k
    exact lookupKey_mergeNamed_replace p.entries [] k

/-- The palette entry a witness document contributes. -/
def paletteWitnessEntry : PaletteDoc :=
  { name := "default", entries := [("focused-change", ["default", ""])] }

/-- A document whose palettes list holds exactly the default entry. -/
def paletteWitnessDoc : ConfigDocument :=
  { servers := [], palettes := [paletteWitnessEntry] }

/-- C9 witness: the theorem applied to a concrete document overriding one
color key of the default palette. -/
theorem palette_default_overlay_witness :
    (paletteWitnessDoc.palettes = [] ++ paletteWitnessEntry :: []
      ∧ paletteWitnessEntry.name = "default")
    ∧ (lookupKey "default" (palettesDict [] paletteWitnessDoc)
          = some (Palette.merge (Palette.mk [])
              (Palette.ofDoc paletteWitnessEntry))
      ∧ (∀ k, lookupKey k (Palette.merge (Palette.mk [])
              (Palette.ofDoc paletteWitnessEntry)).colors
          = firstSome (lookupKey k paletteWitnessEntry.entries.reverse)
              (lookupKey k (Palette.mk []).colors))) :=
  ⟨⟨rfl, rfl⟩,
   palette_default_overlay [] paletteWitnessDoc [] [] paletteWitnessEntry
     rfl rfl (by simp) (by simp)⟩

/-! ## Claim C10: size-column threshold defaults -/

/-- C10: when the document omits size-column thresholds, the resolved
thresholds are the 4-value list for resolved type graph and the 8-value
list for any other resolved type; thresholds given in the document are
kept unchanged. -/
theorem size_column_default_thresholds (doc : ConfigDocument) :
    ((resolveSizeColumn doc.sizeColumn).type = SizeType.graph →
        doc.sizeColumn.bind SizeColumnDoc.thresholds = none →
        (resolveSizeColumn doc.sizeColumn).thresholds = [1, 10, 100, 1000])
    ∧ ((resolveSizeColumn doc.sizeColumn).type ≠ SizeType.graph →
        doc.sizeColumn.bind SizeColumnDoc.thresholds = none →
        (resolveSizeColumn doc.sizeColumn).thresholds
          = [1, 10, 100, 200, 400, 600, 800, 1000])
    ∧ (∀ ts, doc.sizeColumn.bind SizeColumnDoc.thresholds = some ts →
        (resolveSizeColumn doc.sizeColumn).thresholds = ts) := by
  rcases hsc : doc.sizeColumn with _ | s
  · exact ⟨fun _ _ => rfl, fun h _ => absurd rfl h,
      fun ts hts => by simp at hts⟩
  · obtain ⟨ty, th⟩ := s
    cases ty <;> cases th <;>
      simp [resolveSizeColumn, Option.bind]

/-- A document omitting the size-column section entirely. -/
def sizeColumnWitnessDoc : ConfigDocument := { servers := [] }

/-- C10 witness: the theorem applied to a document without a size-column
section, whose resolved type is graph. -/
theorem size_column_default_thresholds_witness :
    ((resolveSizeColumn sizeColumnWitnessDoc.sizeColumn).type
        = SizeType.graph
      ∧ sizeColumnWitnessDoc.sizeColumn.bind SizeColumnDoc.thresholds
        = none)
    ∧ (resolveSizeColumn sizeColumnWitnessDoc.sizeColumn).thresholds
        = [1, 10, 100, 1000] :=
  ⟨⟨rfl, rfl⟩, (size_column_default_thresholds sizeColumnWitnessDoc).1 rfl rfl⟩

end Hubtty
